import Mathlib

/-!
Verification development for the flask_annotation_app repository (src/app.py).

The file shallowly embeds the two components of the program:

* the in-memory annotation store and its request handlers
  (`save_annotation`, `get_annotations`, `set_critical_moment`,
  `get_critical_moment`, `review_annotations`), and
* the asset triple scanner behind the `/videos` route (`list_videos`).

Python floats are modelled by `PyFloat` (an exact rational plus the
non-finite values `inf`, `-inf`, `nan`); JSON/Python values occurring in
request payloads by `PyVal`; a JSON object by an association list `PyObj`.
The builtin `float(x)` coercion is modelled by `pyFloatCoerce`
(string parsing follows CPython's `float(str)` grammar: optional sign,
`inf`/`infinity`/`nan` case-insensitively, or a decimal literal with an
optional fraction and exponent).  `time.strftime("%Y-%m-%d %H:%M:%S")`
is modelled by `strftimeYmdHms` over a broken-down time `Tm`.
An unhandled Python exception inside a handler (KeyError / ValueError /
TypeError), which Flask surfaces as an HTTP 500 server error, is modelled
by the response constructor `Resp.raised`.
-/

/-- A Python float: a finite (exact) rational or one of the three
non-finite values.  `float` equality subtleties (`nan != nan`) are not
needed by any claim; equality below is structural. -/
inductive PyFloat where
  | finite (q : ℚ)
  | inf
  | negInf
  | nan
deriving DecidableEq, Repr

/-- `true` exactly on `PyFloat.finite`. -/
def PyFloat.isFinite : PyFloat → Bool
  | .finite _ => true
  | _ => false

/-- A Python/JSON value as it occurs in request payloads.  JSON integers
parse to Python `int` (`vInt`), JSON decimals to `float` (`vFloat`). -/
inductive PyVal where
  | vNone
  | vBool (b : Bool)
  | vInt (n : ℤ)
  | vFloat (x : PyFloat)
  | vStr (s : String)
deriving DecidableEq, Repr

/-- A JSON object / Python dict with string keys, as an association list
in insertion order (Python dicts preserve insertion order). -/
def PyObj := List (String × PyVal)
deriving DecidableEq, Repr

/-- Python truthiness, as used by the source's `if not video_id:`. -/
def truthy : PyVal → Bool
  | .vNone => false
  | .vBool b => b
  | .vInt n => n ≠ 0
  | .vFloat x => x ≠ .finite 0
  | .vStr s => s ≠ ""

/-- `d.get(k)`: first binding of `k`, `none` when the key is absent. -/
def objGet : PyObj → String → Option PyVal
  | [], _ => none
  | (k', v) :: rest, k => if k' = k then some v else objGet rest k

/-- `d[k] = v`: replace the binding in place when present (Python dicts
keep the key's original position), otherwise append at the end. -/
def objSet : PyObj → String → PyVal → PyObj
  | [], k, v => [(k, v)]
  | (k', v') :: rest, k, v =>
      if k' = k then (k, v) :: rest else (k', v') :: objSet rest k v

/-- Character classes stripped by CPython's `float(str)` before parsing. -/
def isPyWs (c : Char) : Bool :=
  c = ' ' || c = '\t' || c = '\n' || c = '\r' || c = '\x0b' || c = '\x0c'

/-- Strip leading and trailing whitespace. -/
def stripChars (cs : List Char) : List Char :=
  ((cs.dropWhile isPyWs).reverse.dropWhile isPyWs).reverse

/-- Decimal digit run to a natural number. -/
def digitsToNat (ds : List Char) : ℕ :=
  ds.foldl (fun a c => a * 10 + (c.toNat - 48)) 0

/-- A decimal float literal: digits with an optional fraction and an
optional exponent, at least one mantissa digit, nothing left over. -/
def parseDec (cs : List Char) : Option ℚ :=
  let ip := cs.takeWhile Char.isDigit
  let r1 := cs.dropWhile Char.isDigit
  let fr := match r1 with
    | '.' :: t => (t.takeWhile Char.isDigit, t.dropWhile Char.isDigit)
    | _ => (([] : List Char), r1)
  let fp := fr.1
  let r2 := fr.2
  if ip.isEmpty && fp.isEmpty then none
  else
    let mant : ℚ := (digitsToNat ip : ℚ) + (digitsToNat fp : ℚ) / (10 : ℚ) ^ fp.length
    match r2 with
    | [] => some mant
    | c :: t =>
      if c = 'e' || c = 'E' then
        let st := match t with
          | '+' :: u => (false, u)
          | '-' :: u => (true, u)
          | _ => (false, t)
        let ed := st.2.takeWhile Char.isDigit
        if ed.isEmpty || !(st.2.dropWhile Char.isDigit).isEmpty then none
        else some (if st.1 then mant / (10 : ℚ) ^ digitsToNat ed
                   else mant * (10 : ℚ) ^ digitsToNat ed)
      else none

/-- The body of `float(str)` after the sign has been taken off. -/
def parseUnsigned (cs : List Char) (neg : Bool) : Option PyFloat :=
  let low := cs.map Char.toLower
  if low = ['i', 'n', 'f'] || low = ['i', 'n', 'f', 'i', 'n', 'i', 't', 'y'] then
    some (if neg then PyFloat.negInf else PyFloat.inf)
  else if low = ['n', 'a', 'n'] then some PyFloat.nan
  else (parseDec cs).map (fun q => PyFloat.finite (if neg then -q else q))

/-- CPython's `float(str)`: strip whitespace, optional sign, then
`inf`/`infinity`/`nan` (case-insensitive) or a decimal literal. -/
def parsePyFloat (s : String) : Option PyFloat :=
  match stripChars s.toList with
  | '+' :: rest => parseUnsigned rest false
  | '-' :: rest => parseUnsigned rest true
  | rest => parseUnsigned rest false

/-- The builtin `float(x)` on a payload value: `some` the resulting float,
`none` when the call raises (`TypeError` / `ValueError`). -/
def pyFloatCoerce : PyVal → Option PyFloat
  | .vInt n => some (.finite (n : ℚ))
  | .vFloat x => some x
  | .vBool b => some (.finite (if b then 1 else 0))
  | .vStr s => parsePyFloat s
  | .vNone => none

/-- One value of `annotations_db`: the per-video record
`{'annotations': [...], 'critical_moment': ...}`.  `critical_moment`
holds `None` or a Python float, hence `Option PyFloat`. -/
structure VideoRecord where
  annotations : List PyObj
  critical_moment : Option PyFloat
deriving DecidableEq, Repr

/-- The shared in-memory store `annotations_db`, a Python dict keyed by
the client-supplied `video_id` value, in insertion order. -/
def Store := List (PyVal × VideoRecord)
deriving DecidableEq, Repr

/-- `video_id in annotations_db` / `annotations_db[video_id]` lookup. -/
def lookupRec : Store → PyVal → Option VideoRecord
  | [], _ => none
  | (k', r) :: rest, k => if k' = k then some r else lookupRec rest k

/-- `annotations_db[video_id] = r`: replace in place, else append. -/
def setRec : Store → PyVal → VideoRecord → Store
  | [], k, r => [(k, r)]
  | (k', r') :: rest, k, r =>
      if k' = k then (k, r) :: rest else (k', r') :: setRec rest k r

/-- A handler's HTTP response, as far as the claims observe it. -/
inductive Resp where
  /-- `jsonify({"status": "success", "data": data}), 200`. -/
  | okData (data : PyObj)
  /-- `jsonify({"status": "success", "critical_moment": v}), 200`;
  `v` is the value placed under the `critical_moment` key. -/
  | okCrit (critical_moment : PyVal)
  /-- `jsonify({"status": "error", "message": msg}), 400`. -/
  | badRequest (message : String)
  /-- an uncaught exception escaped the handler; Flask turns it into an
  HTTP 500 server error, not a structured JSON error. -/
  | raised
deriving DecidableEq, Repr

/-- `true` exactly on the structured 4xx error response. -/
def Resp.isClientError : Resp → Bool
  | .badRequest _ => true
  | _ => false

/-- Broken-down server time, input of the `strftime` model. -/
structure Tm where
  year : ℕ
  month : ℕ
  day : ℕ
  hour : ℕ
  minute : ℕ
  second : ℕ
deriving DecidableEq, Repr

/-- Two-digit zero-padded decimal field of `strftime`. -/
def pad2c (n : ℕ) : List Char :=
  [Nat.digitChar (n / 10 % 10), Nat.digitChar (n % 10)]

/-- Four-digit zero-padded decimal field of `strftime`. -/
def pad4c (n : ℕ) : List Char :=
  [Nat.digitChar (n / 1000 % 10), Nat.digitChar (n / 100 % 10),
   Nat.digitChar (n / 10 % 10), Nat.digitChar (n % 10)]

/-- `time.strftime("%Y-%m-%d %H:%M:%S")` on a broken-down time. -/
def strftimeYmdHms (t : Tm) : String :=
  ⟨pad4c t.year ++ '-' :: pad2c t.month ++ '-' :: pad2c t.day ++
    ' ' :: pad2c t.hour ++ ':' :: pad2c t.minute ++ ':' :: pad2c t.second⟩

/-- Checks the fixed `YYYY-MM-DD HH:MM:SS` shape: 19 characters,
digits in the date/time positions, the fixed separators between them. -/
def isTimestampFormat (s : String) : Bool :=
  match s.toList with
  | [y1, y2, y3, y4, a1, m1, m2, a2, d1, d2, sp, h1, h2, c1, n1, n2, c2, s1, s2] =>
      y1.isDigit && y2.isDigit && y3.isDigit && y4.isDigit && (a1 == '-') &&
      m1.isDigit && m2.isDigit && (a2 == '-') && d1.isDigit && d2.isDigit &&
      (sp == ' ') && h1.isDigit && h2.isDigit && (c1 == ':') &&
      n1.isDigit && n2.isDigit && (c2 == ':') && s1.isDigit && s2.isDigit
  | _ => false

/-- The `/save_annotation` POST handler (`save_annotation` in app.py).
`now` is the string produced by `time.strftime` at request time; `data`
is the parsed JSON body.  Returns the store afterwards and the response.
Mirrors the source line by line: reject a falsy `video_id` with a 400;
create the record if absent; stamp `data['timestamp']`; coerce
`data['time']` with `float` (an uncaught KeyError / ValueError /
TypeError here is `Resp.raised`); append; answer 200 with the data. -/
def save_annotation_route (now : String) (db : Store) (data : PyObj) :
    Store × Resp :=
  let video_id := (objGet data "video_id").getD PyVal.vNone
  if truthy video_id = false then
    (db, Resp.badRequest "No video_id provided")
  else
    let db1 := if (lookupRec db video_id).isSome then db
               else setRec db video_id ⟨[], none⟩
    let data1 := objSet data "timestamp" (PyVal.vStr now)
    match objGet data1 "time" with
    | none => (db1, Resp.raised)
    | some t =>
      match pyFloatCoerce t with
      | none => (db1, Resp.raised)
      | some x =>
        let data2 := objSet data1 "time" (PyVal.vFloat x)
        let r := (lookupRec db1 video_id).getD ⟨[], none⟩
        (setRec db1 video_id ⟨r.annotations ++ [data2], r.critical_moment⟩,
         Resp.okData data2)

/-- The `/get_annotations` GET handler.  `video_id` is the query
parameter (query parameters are strings; `none` when absent).  Returns
the JSON array of the response body. -/
def get_annotations (db : Store) (video_id : Option String) : List PyObj :=
  match video_id with
  | none => []
  | some s =>
    if s = "" then []
    else
      match lookupRec db (PyVal.vStr s) with
      | none => []
      | some r => r.annotations

/-- The `/set_critical_moment` POST handler.  Mirrors the source:
reject a falsy `video_id` with a 400; create the record if absent;
coerce `critical_moment` with `float` (uncaught exception on failure);
store the float; answer 200 echoing the *original* `critical_moment`
value from the request. -/
def set_critical_moment (db : Store) (data : PyObj) : Store × Resp :=
  let video_id := (objGet data "video_id").getD PyVal.vNone
  let critical_moment := (objGet data "critical_moment").getD PyVal.vNone
  if truthy video_id = false then
    (db, Resp.badRequest "No video_id provided")
  else
    let db1 := if (lookupRec db video_id).isSome then db
               else setRec db video_id ⟨[], none⟩
    match pyFloatCoerce critical_moment with
    | none => (db1, Resp.raised)
    | some x =>
      let r := (lookupRec db1 video_id).getD ⟨[], none⟩
      (setRec db1 video_id ⟨r.annotations, some x⟩,
       Resp.okCrit critical_moment)

/-- The `/get_critical_moment` GET handler: the JSON value placed under
the `critical_moment` key of the response body. -/
def get_critical_moment (db : Store) (video_id : Option String) : PyVal :=
  match video_id with
  | none => PyVal.vNone
  | some s =>
    if s = "" then PyVal.vNone
    else
      match lookupRec db (PyVal.vStr s) with
      | none => PyVal.vNone
      | some r =>
        match r.critical_moment with
        | none => PyVal.vNone
        | some x => PyVal.vFloat x

/-- Response body of the `/review_annotations` GET handler. -/
inductive ReviewResp where
  /-- `{"annotations": [], "message": ...}` for an unknown id. -/
  | noData (annotations : List PyObj) (message : String)
  /-- `{"video_id": ..., "annotations": [...]}`. -/
  | withData (video_id : String) (annotations : List PyObj)
deriving DecidableEq, Repr

/-- The `/review_annotations` GET handler. -/
def review_annotations (db : Store) (video_id : Option String) : ReviewResp :=
  match video_id with
  | none => ReviewResp.noData [] "No data for this video_id"
  | some s =>
    if s = "" then ReviewResp.noData [] "No data for this video_id"
    else
      match lookupRec db (PyVal.vStr s) with
      | none => ReviewResp.noData [] "No data for this video_id"
      | some r => ReviewResp.withData s r.annotations

/-! ## The asset triple scanner (`/videos`) -/

/-- A filesystem node: a plain file or a directory with named children
in enumeration order. -/
inductive FsNode where
  | file
  | dir (entries : List (String × FsNode))

/-- `true` on directories (`os.path.isdir`). -/
def FsNode.isDir : FsNode → Bool
  | .dir _ => true
  | .file => false

/-- Raised by `os.listdir` on a bad path, surfaced by Flask as a 500. -/
inductive FsError where
  | fileNotFound
  | notADir
deriving DecidableEq, Repr

/-- `os.listdir(path)`: the entries of a directory; raises
`FileNotFoundError` on a missing path and `NotADirectoryError` on a
non-directory. -/
def listdir : Option FsNode → Except FsError (List (String × FsNode))
  | none => .error .fileNotFound
  | some .file => .error .notADir
  | some (.dir es) => .ok es

/-- `os.path.splitext(name)[1]`: the extension from the last dot on,
empty when there is no dot or when every character before the last dot
is itself a dot (so `".bashrc"` has no extension). -/
def splitextExt (name : String) : String :=
  let cs := name.toList
  match cs.reverse.findIdx? (· = '.') with
  | none => ""
  | some r =>
    let i := cs.length - 1 - r
    if (cs.take i).any (fun c => c ≠ '.') then ⟨cs.drop i⟩ else ""

/-- `os.path.splitext(filename)[1].lower()` (lower-casing character by
character, as `str.lower` does for these ASCII extensions). -/
def extLower (name : String) : String :=
  ⟨(splitextExt name).toList.map Char.toLower⟩

/-- One step of the scan loop over a folder's entries: skip
subdirectories, classify a file by its lowercased extension into the
`(video_file, csv_file, pdf_file)` accumulator (last match wins). -/
def scanStep (acc : Option String × Option String × Option String)
    (e : String × FsNode) : Option String × Option String × Option String :=
  if e.2.isDir then acc
  else
    let ext := extLower e.1
    if ext = ".mp4" then (some e.1, acc.2.1, acc.2.2)
    else if ext = ".csv" then (acc.1, some e.1, acc.2.2)
    else if ext = ".pdf" then (acc.1, acc.2.1, some e.1)
    else acc

/-- The inner loop of `list_videos` over one folder. -/
def scanFolder (fs : List (String × FsNode)) :
    Option String × Option String × Option String :=
  fs.foldl scanStep (none, none, none)

/-- `url_for('static', filename=...)` with the app's default static
route. -/
def staticUrl (filename : String) : String := "/static/" ++ filename

/-- One emitted triple of the `/videos` route. -/
structure Blast where
  folder : String
  video_url : String
  csv_url : String
  pdf_url : String
deriving DecidableEq, Repr

/-- The per-folder body of `list_videos`: scan the folder's entries and
record the triple only when `video_file and csv_file and pdf_file` is
truthy (all three found and non-empty). -/
def mkBlast (e : String × FsNode) : Option Blast :=
  match e.2 with
  | .file => none
  | .dir fs =>
    match scanFolder fs with
    | (some video_file, some csv_file, some pdf_file) =>
      if video_file ≠ "" ∧ csv_file ≠ "" ∧ pdf_file ≠ "" then
        some { folder := e.1,
               video_url := staticUrl ("blasts/" ++ e.1 ++ "/" ++ video_file),
               csv_url := staticUrl ("blasts/" ++ e.1 ++ "/" ++ csv_file),
               pdf_url := staticUrl ("blasts/" ++ e.1 ++ "/" ++ pdf_file) }
      else none
    | _ => none

/-- The `/videos` route (`list_videos` in app.py): list the blasts
root, keep the immediate subdirectories, and collect the complete
triples.  `root` is the node at `static/blasts` (or `none` when that
path does not exist); an `os.listdir` exception propagates. -/
def list_videos (root : Option FsNode) : Except FsError (List Blast) :=
  match listdir root with
  | .error e => .error e
  | .ok entries =>
    let blast_folders := entries.filter (fun e => e.2.isDir)
    .ok (blast_folders.filterMap mkBlast)

/-! ## Specification-side descriptions used by the claims -/

/-- The classifier of step 3 of the scan: a non-directory entry whose
lowercased `splitext` extension is `ext`. -/
def isBucketFile (ext : String) (e : String × FsNode) : Bool :=
  !e.2.isDir && (extLower e.1 == ext)

/-- The last entry in enumeration order that classifies into the `ext`
bucket (the first match of the reversed listing), by name. -/
def lastFile (ext : String) (fs : List (String × FsNode)) : Option String :=
  (fs.reverse.find? (isBucketFile ext)).map (·.1)

/-- A folder node whose direct non-directory entries contain at least
one file of each of the three recognized extensions. -/
def hasTriple : FsNode → Bool
  | .file => false
  | .dir fs =>
      fs.any (isBucketFile ".mp4") && fs.any (isBucketFile ".csv") &&
        fs.any (isBucketFile ".pdf")

/-- The stored annotation's `time` field is a Python float. -/
def timeIsFloat (a : PyObj) : Bool :=
  match objGet a "time" with
  | some (.vFloat _) => true
  | _ => false

/-- Every annotation of the record has a float `time`. -/
def annTimesOk (r : VideoRecord) : Bool := r.annotations.all timeIsFloat

/-- Every stored annotation in the store has a float `time`. -/
def storeTimesOk : Store → Bool
  | [] => true
  | (_, r) :: rest => annTimesOk r && storeTimesOk rest

/-! ## Helper lemmas about the store and object operations -/

theorem objGet_objSet_self (o : PyObj) (k : String) (v : PyVal) :
    objGet (objSet o k v) k = some v := by
  induction o with
  | nil => simp [objGet, objSet]
  | cons e rest ih =>
    by_cases h : e.1 = k
    · simp [objGet, objSet, h]
    · simp [objGet, objSet, h, ih]

theorem objGet_objSet_ne (o : PyObj) (k k' : String) (v : PyVal)
    (h : k' ≠ k) : objGet (objSet o k v) k' = objGet o k' := by
  have hk : k ≠ k' := fun hh => h hh.symm
  induction o with
  | nil => simp [objGet, objSet, hk]
  | cons e rest ih =>
    obtain ⟨k1, v1⟩ := e
    by_cases he : k1 = k
    · simp [objGet, objSet, he, hk]
    · by_cases he' : k1 = k'
      · simp [objGet, objSet, he, he', h]
      · simp [objGet, objSet, he, he', ih]

theorem lookupRec_setRec_self (db : Store) (k : PyVal) (r : VideoRecord) :
    lookupRec (setRec db k r) k = some r := by
  induction db with
  | nil => simp [lookupRec, setRec]
  | cons e rest ih =>
    by_cases h : e.1 = k
    · simp [lookupRec, setRec, h]
    · simp [lookupRec, setRec, h, ih]

/-! ## Claims -/

/-- C5: for every payload with a missing (or empty) `video_id`,
`save_annotation` returns the structured error response (status
"error", HTTP 400, modelled by `Resp.badRequest`) and leaves the
annotation store completely unchanged. -/
theorem c5_missing_video_id (now : String) (db : Store) (data : PyObj)
    (h : objGet data "video_id" = none ∨
         objGet data "video_id" = some (PyVal.vStr "")) :
    save_annotation_route now db data =
      (db, Resp.badRequest "No video_id provided") := by
  rcases h with h | h <;> simp [save_annotation_route, h, truthy]

theorem c5_missing_video_id_witness :
    save_annotation_route "2025-01-01 00:00:00" [] [("time", PyVal.vStr "1")] =
      ([], Resp.badRequest "No video_id provided") :=
  c5_missing_video_id _ _ _ (Or.inl (by decide))

/-- C7: reads never fail.  For a `video_id` with no record,
`get_annotations` returns the empty list, `get_critical_moment` returns
`None` and `review_annotations` returns the explicit no-data indicator
with an empty annotation list; and when the record exists with an unset
`critical_moment`, `get_critical_moment` also returns `None`. -/
theorem c7_reads_total (db : Store) (v : String) :
    (lookupRec db (PyVal.vStr v) = none →
      get_annotations db (some v) = [] ∧
      get_critical_moment db (some v) = PyVal.vNone ∧
      review_annotations db (some v) =
        ReviewResp.noData [] "No data for this video_id") ∧
    (∀ r : VideoRecord, lookupRec db (PyVal.vStr v) = some r →
      r.critical_moment = none →
      get_critical_moment db (some v) = PyVal.vNone) := by
  constructor
  · intro h
    by_cases hv : v = ""
    · subst hv; exact ⟨rfl, rfl, rfl⟩
    · simp [get_annotations, get_critical_moment, review_annotations, hv, h]
  · intro r h hc
    by_cases hv : v = ""
    · subst hv; rfl
    · simp [get_critical_moment, hv, h, hc]

def db7 : Store := [(PyVal.vStr "a", ⟨[], none⟩)]

theorem c7_reads_total_witness :
    (get_annotations db7 (some "b") = [] ∧
     get_critical_moment db7 (some "b") = PyVal.vNone ∧
     review_annotations db7 (some "b") =
       ReviewResp.noData [] "No data for this video_id") ∧
    get_critical_moment db7 (some "a") = PyVal.vNone :=
  ⟨(c7_reads_total db7 "b").1 (by decide),
   (c7_reads_total db7 "a").2 ⟨[], none⟩ (by decide) rfl⟩

/-- C9: for a root path that does not exist or is not a directory, the
scan fails with the filesystem error raised by `os.listdir`
(`FileNotFoundError` / `NotADirectoryError`, which propagates out of
the handler as a server error) and in particular does not return an
empty list of triples. -/
theorem c9_scan_error (root : Option FsNode)
    (h : ∀ es, root ≠ some (FsNode.dir es)) :
    (list_videos root = Except.error FsError.fileNotFound ∨
     list_videos root = Except.error FsError.notADir) ∧
    list_videos root ≠ Except.ok [] := by
  match root with
  | none => exact ⟨Or.inl rfl, fun hh => Except.noConfusion hh⟩
  | some FsNode.file => exact ⟨Or.inr rfl, fun hh => Except.noConfusion hh⟩
  | some (FsNode.dir es) => exact absurd rfl (h es)

theorem c9_scan_error_witness :
    (list_videos none = Except.error FsError.fileNotFound ∨
     list_videos none = Except.error FsError.notADir) ∧
    list_videos none ≠ Except.ok [] :=
  c9_scan_error none (fun _ h => Option.noConfusion h)

/-- C10 (implicit, from the code): a `save_annotation` or
`set_critical_moment` request for a previously unseen non-empty
`video_id` whose `time` / `critical_moment` value fails `float`
coercion still mutates the store: the record is created (empty
annotation list, `critical_moment` `None`) before the coercion is
attempted, and it remains in the returned store while the request
itself fails with the uncaught exception. -/
theorem c10_record_created (now : String) (db : Store) (v : String)
    (hvne : v ≠ "") (habs : lookupRec db (PyVal.vStr v) = none) :
    (∀ data t, objGet data "video_id" = some (PyVal.vStr v) →
       objGet data "time" = some t → pyFloatCoerce t = none →
       lookupRec (save_annotation_route now db data).1 (PyVal.vStr v) =
         some ⟨[], none⟩ ∧
       (save_annotation_route now db data).2 = Resp.raised) ∧
    (∀ data c, objGet data "video_id" = some (PyVal.vStr v) →
       objGet data "critical_moment" = some c → pyFloatCoerce c = none →
       lookupRec (set_critical_moment db data).1 (PyVal.vStr v) =
         some ⟨[], none⟩ ∧
       (set_critical_moment db data).2 = Resp.raised) := by
  constructor
  · intro data t hv ht hx
    have ht1 : objGet (objSet data "timestamp" (PyVal.vStr now)) "time" =
        some t := by
      rw [objGet_objSet_ne _ _ _ _ (by decide)]; exact ht
    simp [save_annotation_route, hv, truthy, hvne, habs, ht1, hx,
      lookupRec_setRec_self]
  · intro data c hv hc hx
    simp [set_critical_moment, hv, hc, truthy, hvne, habs, hx,
      lookupRec_setRec_self]

def dataT : PyObj := [("video_id", PyVal.vStr "v1"), ("time", PyVal.vStr "oops")]

def dataC : PyObj := [("video_id", PyVal.vStr "v1"), ("critical_moment", PyVal.vNone)]

theorem c10_record_created_witness :
    (lookupRec (save_annotation_route "t0" [] dataT).1 (PyVal.vStr "v1") =
       some ⟨[], none⟩ ∧
     (save_annotation_route "t0" [] dataT).2 = Resp.raised) ∧
    (lookupRec (set_critical_moment [] dataC).1 (PyVal.vStr "v1") =
       some ⟨[], none⟩ ∧
     (set_critical_moment [] dataC).2 = Resp.raised) :=
  ⟨(c10_record_created "t0" [] "v1" (by decide) rfl).1 dataT
     (PyVal.vStr "oops") (by decide) (by decide) (by decide),
   (c10_record_created "t0" [] "v1" (by decide) rfl).2 dataC
     PyVal.vNone (by decide) (by decide) rfl⟩

def d4x : PyObj := [("video_id", PyVal.vStr "v1"), ("time", PyVal.vStr "not-a-number")]

/-- C4 counterexample: with a non-empty `video_id` and a non-numeric
`time`, the handler does not answer with a structured 4xx error
response; the `float` call raises an uncaught exception
(`Resp.raised`), which Flask surfaces as an HTTP 500 server error. -/
theorem c4_counterexample :
    (save_annotation_route "2025-01-01 00:00:00" [] d4x).2 = Resp.raised ∧
    Resp.isClientError (save_annotation_route "2025-01-01 00:00:00" [] d4x).2 =
      false := by
  decide

/-- C4 amended: with a non-empty `video_id` and a `time` value that
`float` cannot coerce, `save_annotation` fails with an uncaught
exception (surfaced as a server error, not a structured 4xx response)
and no annotation entry is stored for that `video_id`. -/
theorem c4_amended (now : String) (db : Store) (data : PyObj) (v : String)
    (t : PyVal)
    (hv : objGet data "video_id" = some (PyVal.vStr v)) (hvne : v ≠ "")
    (ht : objGet data "time" = some t) (hx : pyFloatCoerce t = none) :
    (save_annotation_route now db data).2 = Resp.raised ∧
    get_annotations (save_annotation_route now db data).1 (some v) =
      get_annotations db (some v) := by
  have ht1 : objGet (objSet data "timestamp" (PyVal.vStr now)) "time" =
      some t := by
    rw [objGet_objSet_ne _ _ _ _ (by decide)]; exact ht
  cases habs : lookupRec db (PyVal.vStr v) with
  | none =>
    constructor
    · simp [save_annotation_route, hv, truthy, hvne, habs, ht1, hx]
    · simp [save_annotation_route, get_annotations, hv, truthy, hvne, habs,
        ht1, hx, lookupRec_setRec_self]
  | some r =>
    constructor
    · simp [save_annotation_route, hv, truthy, hvne, habs, ht1, hx]
    · simp [save_annotation_route, hv, truthy, hvne, habs, ht1, hx]

def d4w : PyObj := [("video_id", PyVal.vStr "w"), ("time", PyVal.vNone)]

theorem c4_amended_witness :
    (save_annotation_route "t1" [] d4w).2 = Resp.raised ∧
    get_annotations (save_annotation_route "t1" [] d4w).1 (some "w") =
      get_annotations [] (some "w") :=
  c4_amended "t1" [] d4w "w" PyVal.vNone (by decide) (by decide) (by decide) rfl

/-- `float("5.0")` is the float `5.0` (the Rat arithmetic of the
parser is evaluated by `norm_num`; everything else reduces). -/
theorem parse_five : parsePyFloat "5.0" = some (PyFloat.finite 5) := by
  have h1 : parsePyFloat "5.0" =
      (parseDec ['5', '.', '0']).map (fun q => PyFloat.finite q) := rfl
  have h2 : parseDec ['5', '.', '0'] =
      some (((5 : ℕ) : ℚ) + ((0 : ℕ) : ℚ) / (10 : ℚ) ^ (1 : ℕ)) := rfl
  have h3 : ((5 : ℕ) : ℚ) + ((0 : ℕ) : ℚ) / (10 : ℚ) ^ (1 : ℕ) = (5 : ℚ) := by
    norm_num
  rw [h1, h2]
  simp only [Option.map_some', h3]

def d6x : PyObj := [("video_id", PyVal.vStr "v"), ("critical_moment", PyVal.vStr "5.0")]

/-- C6 counterexample: with the numeric-parseable string `"5.0"` as
`critical_moment`, the store receives the coerced float `5.0`, but the
response echoes the original client string `"5.0"`, which is not the
stored coerced-to-float value. -/
theorem c6_counterexample :
    (set_critical_moment [] d6x).1 =
      [(PyVal.vStr "v", ⟨[], some (PyFloat.finite 5)⟩)] ∧
    (set_critical_moment [] d6x).2 = Resp.okCrit (PyVal.vStr "5.0") ∧
    PyVal.vStr "5.0" ≠ PyVal.vFloat (PyFloat.finite 5) := by
  have hp : pyFloatCoerce (PyVal.vStr "5.0") = some (PyFloat.finite 5) :=
    parse_five
  refine ⟨?_, ?_, by decide⟩ <;>
    simp [set_critical_moment, d6x, objGet, truthy, lookupRec, setRec, hp]

/-- C6 amended: with a non-empty `video_id` and a coercible value,
`set_critical_moment` stores the coerced float (creating the record if
absent, overwriting any previous value), a subsequent
`get_critical_moment` returns that float, and the response echoes the
client-supplied value as given (un-coerced) rather than the stored
float. -/
theorem c6_amended (db : Store) (data : PyObj) (v : String) (c : PyVal)
    (x : PyFloat)
    (hv : objGet data "video_id" = some (PyVal.vStr v)) (hvne : v ≠ "")
    (hc : objGet data "critical_moment" = some c)
    (hx : pyFloatCoerce c = some x) :
    (lookupRec (set_critical_moment db data).1 (PyVal.vStr v)).map
        VideoRecord.critical_moment = some (some x) ∧
    get_critical_moment (set_critical_moment db data).1 (some v) =
      PyVal.vFloat x ∧
    (set_critical_moment db data).2 = Resp.okCrit c := by
  cases habs : lookupRec db (PyVal.vStr v) with
  | none =>
    refine ⟨?_, ?_, ?_⟩ <;>
      simp [set_critical_moment, get_critical_moment, hv, hc, truthy, hvne,
        habs, hx, lookupRec_setRec_self]
  | some r =>
    refine ⟨?_, ?_, ?_⟩ <;>
      simp [set_critical_moment, get_critical_moment, hv, hc, truthy, hvne,
        habs, hx, lookupRec_setRec_self]

def d6w : PyObj := [("video_id", PyVal.vStr "u"),
  ("critical_moment", PyVal.vFloat PyFloat.nan)]

theorem c6_amended_witness :
    (lookupRec (set_critical_moment [] d6w).1 (PyVal.vStr "u")).map
        VideoRecord.critical_moment = some (some PyFloat.nan) ∧
    get_critical_moment (set_critical_moment [] d6w).1 (some "u") =
      PyVal.vFloat PyFloat.nan ∧
    (set_critical_moment [] d6w).2 = Resp.okCrit (PyVal.vFloat PyFloat.nan) :=
  c6_amended [] d6w "u" (PyVal.vFloat PyFloat.nan) PyFloat.nan
    (by decide) (by decide) (by decide) rfl

def d8x : PyObj := [("video_id", PyVal.vStr "v"), ("critical_moment", PyVal.vStr "inf")]

/-- C8 counterexample: from the empty initial store, one
`set_critical_moment` request with the numeric-parseable string
`"inf"` reaches a store state whose record holds the non-finite float
`inf` as its `critical_moment`, so not every reachable state keeps
`critical_moment` `None`-or-finite. -/
theorem c8_counterexample :
    (set_critical_moment [] d8x).1 =
      [(PyVal.vStr "v", ⟨[], some PyFloat.inf⟩)] ∧
    PyFloat.isFinite PyFloat.inf = false := by
  decide

theorem annTimesOk_lookup (db : Store) (k : PyVal) (r : VideoRecord)
    (h : storeTimesOk db = true) (hl : lookupRec db k = some r) :
    annTimesOk r = true := by
  induction db with
  | nil => simp [lookupRec] at hl
  | cons e rest ih =>
    obtain ⟨k1, r1⟩ := e
    have h1 : annTimesOk r1 = true ∧ storeTimesOk rest = true := by
      simpa [storeTimesOk, Bool.and_eq_true] using h
    by_cases hk : k1 = k
    · simp [lookupRec, hk] at hl
      exact hl ▸ h1.1
    · simp [lookupRec, hk] at hl
      exact ih h1.2 hl

theorem storeTimesOk_setRec (db : Store) (k : PyVal) (r : VideoRecord)
    (h : storeTimesOk db = true) (hr : annTimesOk r = true) :
    storeTimesOk (setRec db k r) = true := by
  induction db with
  | nil => simp [setRec, storeTimesOk, hr]
  | cons e rest ih =>
    obtain ⟨k1, r1⟩ := e
    have h1 : annTimesOk r1 = true ∧ storeTimesOk rest = true := by
      simpa [storeTimesOk, Bool.and_eq_true] using h
    by_cases hk : k1 = k
    · simp [setRec, hk, storeTimesOk, hr, h1.2]
    · simp [setRec, hk, storeTimesOk, h1.1, ih h1.2]

theorem annTimesOk_getD (db : Store) (k : PyVal) (h : storeTimesOk db = true) :
    annTimesOk ((lookupRec db k).getD ⟨[], none⟩) = true := by
  cases hl : lookupRec db k with
  | none => rfl
  | some r => simpa using annTimesOk_lookup db k r h hl

theorem storeTimesOk_ensure (db : Store) (vid : PyVal)
    (h : storeTimesOk db = true) :
    storeTimesOk (if (lookupRec db vid).isSome then db
      else setRec db vid ⟨[], none⟩) = true := by
  split
  · exact h
  · exact storeTimesOk_setRec _ _ _ h rfl

theorem annTimesOk_push (r : VideoRecord) (a : PyObj) (m : Option PyFloat)
    (hr : annTimesOk r = true) (ha : timeIsFloat a = true) :
    annTimesOk ⟨r.annotations ++ [a], m⟩ = true := by
  have hr' : r.annotations.all timeIsFloat = true := hr
  simp [annTimesOk, List.all_append, ha, hr']

theorem timeIsFloat_objSet (o : PyObj) (x : PyFloat) :
    timeIsFloat (objSet o "time" (PyVal.vFloat x)) = true := by
  simp [timeIsFloat, objGet_objSet_self]

/-- C8 amended: in every reachable store state, each record's
`critical_moment` is `None` or a Python float — possibly a non-finite
one, since `float("inf")` / `float("nan")` succeed and are stored —
and the `time` field of every stored annotation entry is a float
(requests whose value cannot be coerced fail without storing an
entry).  The first part is the typing of `VideoRecord`
(`critical_moment : Option PyFloat`); the float-`time` invariant
`storeTimesOk` holds of the empty initial store and is preserved by
both mutating handlers. -/
theorem c8_amended (db : Store) (now : String) (data : PyObj)
    (h : storeTimesOk db = true) :
    storeTimesOk ([] : Store) = true ∧
    storeTimesOk (save_annotation_route now db data).1 = true ∧
    storeTimesOk (set_critical_moment db data).1 = true := by
  refine ⟨rfl, ?_, ?_⟩
  · cases hv : truthy ((objGet data "video_id").getD PyVal.vNone) with
    | false => simp [save_annotation_route, hv, h]
    | true =>
      cases hl : lookupRec db ((objGet data "video_id").getD PyVal.vNone) with
      | none =>
        have hdb1 : storeTimesOk
            (setRec db ((objGet data "video_id").getD PyVal.vNone)
              ⟨[], none⟩) = true :=
          storeTimesOk_setRec _ _ _ h rfl
        cases ht : objGet (objSet data "timestamp" (PyVal.vStr now)) "time" with
        | none => simpa [save_annotation_route, hv, hl, ht] using hdb1
        | some t =>
          cases hx : pyFloatCoerce t with
          | none => simpa [save_annotation_route, hv, hl, ht, hx] using hdb1
          | some x =>
            simp [save_annotation_route, hv, hl, ht, hx, lookupRec_setRec_self]
            exact storeTimesOk_setRec _ _ _ hdb1
              (by simp [annTimesOk, timeIsFloat_objSet])
      | some r =>
        cases ht : objGet (objSet data "timestamp" (PyVal.vStr now)) "time" with
        | none => simpa [save_annotation_route, hv, hl, ht] using h
        | some t =>
          cases hx : pyFloatCoerce t with
          | none => simpa [save_annotation_route, hv, hl, ht, hx] using h
          | some x =>
            simp [save_annotation_route, hv, hl, ht, hx]
            exact storeTimesOk_setRec _ _ _ h
              (annTimesOk_push _ _ _ (annTimesOk_lookup db _ r h hl)
                (timeIsFloat_objSet _ _))
  · cases hv : truthy ((objGet data "video_id").getD PyVal.vNone) with
    | false => simp [set_critical_moment, hv, h]
    | true =>
      cases hl : lookupRec db ((objGet data "video_id").getD PyVal.vNone) with
      | none =>
        have hdb1 : storeTimesOk
            (setRec db ((objGet data "video_id").getD PyVal.vNone)
              ⟨[], none⟩) = true :=
          storeTimesOk_setRec _ _ _ h rfl
        cases hx : pyFloatCoerce ((objGet data "critical_moment").getD PyVal.vNone) with
        | none => simpa [set_critical_moment, hv, hl, hx] using hdb1
        | some x =>
          simp [set_critical_moment, hv, hl, hx, lookupRec_setRec_self]
          exact storeTimesOk_setRec _ _ _ hdb1 rfl
      | some r =>
        cases hx : pyFloatCoerce ((objGet data "critical_moment").getD PyVal.vNone) with
        | none => simpa [set_critical_moment, hv, hl, hx] using h
        | some x =>
          simp [set_critical_moment, hv, hl, hx]
          exact storeTimesOk_setRec _ _ _ h (annTimesOk_lookup db _ r h hl)

def d8w : PyObj := [("video_id", PyVal.vStr "z"), ("time", PyVal.vInt 3),
  ("critical_moment", PyVal.vInt 4)]

theorem c8_amended_witness :
    storeTimesOk ([] : Store) = true ∧
    storeTimesOk (save_annotation_route "t" [] d8w).1 = true ∧
    storeTimesOk (set_critical_moment [] d8w).1 = true :=
  c8_amended [] "t" d8w rfl

theorem digitChar_mod_isDigit (n : ℕ) :
    (Nat.digitChar (n % 10)).isDigit = true := by
  have h : n % 10 < 10 := Nat.mod_lt _ (by norm_num)
  set m := n % 10 with hm
  interval_cases m <;> decide

/-- The `strftime` model always produces the fixed
`YYYY-MM-DD HH:MM:SS` shape. -/
theorem strftime_format (t : Tm) :
    isTimestampFormat (strftimeYmdHms t) = true := by
  simp [strftimeYmdHms, isTimestampFormat, pad2c, pad4c, String.toList,
    digitChar_mod_isDigit]

theorem strftime_ne_empty (t : Tm) : strftimeYmdHms t ≠ "" := by
  intro h
  have hf := strftime_format t
  rw [h] at hf
  exact absurd hf (by decide)

/-- The annotation entry as stored by `save_annotation`: the client
payload with the server `timestamp` stamped in and `time` replaced by
its `float` coercion (the two mutations of the source, in order). -/
def stampEntry (data : PyObj) (now : String) (x : PyFloat) : PyObj :=
  objSet (objSet data "timestamp" (PyVal.vStr now)) "time" (PyVal.vFloat x)

/-- C3: for a non-empty `video_id` and a payload whose `time` is
numeric-parseable, `save_annotation` (with the server clock formatted
by `strftime`) answers 200 with the stamped entry, and a following
`get_annotations` on the same `video_id` returns the previous sequence
with the new entry appended at the end (creating the record if
absent).  The entry's `time` is the coerced float and its `timestamp`
is the non-empty server string in the fixed `YYYY-MM-DD HH:MM:SS`
format. -/
theorem c3_save_then_get (db : Store) (data : PyObj) (v : String) (t : PyVal)
    (x : PyFloat) (tm : Tm) (now : String)
    (hnow : now = strftimeYmdHms tm)
    (hv : objGet data "video_id" = some (PyVal.vStr v)) (hvne : v ≠ "")
    (ht : objGet data "time" = some t) (hx : pyFloatCoerce t = some x) :
    (save_annotation_route now db data).2 =
      Resp.okData (stampEntry data now x) ∧
    get_annotations (save_annotation_route now db data).1 (some v) =
      get_annotations db (some v) ++ [stampEntry data now x] ∧
    objGet (stampEntry data now x) "time" = some (PyVal.vFloat x) ∧
    objGet (stampEntry data now x) "timestamp" = some (PyVal.vStr now) ∧
    now ≠ "" ∧ isTimestampFormat now = true := by
  have ht1 : objGet (objSet data "timestamp" (PyVal.vStr now)) "time" =
      some t := by
    rw [objGet_objSet_ne _ _ _ _ (by decide)]; exact ht
  have hts : objGet (stampEntry data now x) "time" =
      some (PyVal.vFloat x) := objGet_objSet_self _ _ _
  have htss : objGet (stampEntry data now x) "timestamp" =
      some (PyVal.vStr now) := by
    unfold stampEntry
    rw [objGet_objSet_ne _ _ _ _ (by decide)]
    exact objGet_objSet_self _ _ _
  refine ⟨?_, ?_, hts, htss, hnow ▸ strftime_ne_empty tm,
    hnow ▸ strftime_format tm⟩ <;>
  · cases habs : lookupRec db (PyVal.vStr v) with
    | none =>
      simp [save_annotation_route, get_annotations, hv, truthy, hvne, habs,
        ht1, hx, stampEntry, lookupRec_setRec_self]
    | some r =>
      simp [save_annotation_route, get_annotations, hv, truthy, hvne, habs,
        ht1, hx, stampEntry, lookupRec_setRec_self]

/-- `float("12.34")` is the float `1234/100 = 617/50`. -/
theorem parse_twelve34 : parsePyFloat "12.34" = some (PyFloat.finite (617 / 50)) := by
  have h1 : parsePyFloat "12.34" =
      (parseDec ['1', '2', '.', '3', '4']).map (fun q => PyFloat.finite q) := rfl
  have h2 : parseDec ['1', '2', '.', '3', '4'] =
      some (((12 : ℕ) : ℚ) + ((34 : ℕ) : ℚ) / (10 : ℚ) ^ (2 : ℕ)) := rfl
  have h3 : ((12 : ℕ) : ℚ) + ((34 : ℕ) : ℚ) / (10 : ℚ) ^ (2 : ℕ) =
      (617 / 50 : ℚ) := by norm_num
  rw [h1, h2]
  simp only [Option.map_some', h3]

def d3w : PyObj := [("video_id", PyVal.vStr "v1"), ("time", PyVal.vStr "12.34"),
  ("comment", PyVal.vStr "rock"), ("user", PyVal.vStr "Alice")]

def tm3 : Tm := ⟨2025, 1, 1, 12, 0, 0⟩

theorem c3_save_then_get_witness :
    (save_annotation_route (strftimeYmdHms tm3) [] d3w).2 =
      Resp.okData (stampEntry d3w (strftimeYmdHms tm3)
        (PyFloat.finite (617 / 50))) ∧
    get_annotations (save_annotation_route (strftimeYmdHms tm3) [] d3w).1
        (some "v1") =
      get_annotations [] (some "v1") ++
        [stampEntry d3w (strftimeYmdHms tm3) (PyFloat.finite (617 / 50))] ∧
    objGet (stampEntry d3w (strftimeYmdHms tm3) (PyFloat.finite (617 / 50)))
        "time" = some (PyVal.vFloat (PyFloat.finite (617 / 50))) ∧
    objGet (stampEntry d3w (strftimeYmdHms tm3) (PyFloat.finite (617 / 50)))
        "timestamp" = some (PyVal.vStr (strftimeYmdHms tm3)) ∧
    strftimeYmdHms tm3 ≠ "" ∧ isTimestampFormat (strftimeYmdHms tm3) = true :=
  c3_save_then_get [] d3w "v1" (PyVal.vStr "12.34") (PyFloat.finite (617 / 50))
    tm3 (strftimeYmdHms tm3) rfl (by decide) (by decide) (by decide)
    parse_twelve34

theorem scanFolder_foldl (fs : List (String × FsNode)) :
    ∀ a, List.foldl scanStep a fs =
      (Option.or (lastFile ".mp4" fs) a.1,
       Option.or (lastFile ".csv" fs) a.2.1,
       Option.or (lastFile ".pdf" fs) a.2.2) := by
  induction fs with
  | nil =>
    intro a
    simp [lastFile, Option.none_or]
  | cons e xs ih =>
    intro a
    have hl : ∀ ext, lastFile ext (e :: xs) =
        Option.or (lastFile ext xs)
          (if isBucketFile ext e then some e.1 else none) := by
      intro ext
      simp only [lastFile, List.reverse_cons, List.find?_append]
      cases hf : List.find? (isBucketFile ext) xs.reverse with
      | none =>
        cases hpe : isBucketFile ext e <;>
          simp [hpe, List.find?_cons, hf, Option.none_or]
      | some w => simp [hf]
    have hstep : scanStep a e =
        (Option.or (if isBucketFile ".mp4" e then some e.1 else none) a.1,
         Option.or (if isBucketFile ".csv" e then some e.1 else none) a.2.1,
         Option.or (if isBucketFile ".pdf" e then some e.1 else none) a.2.2) := by
      obtain ⟨nm, nd⟩ := e
      cases nd with
      | dir es => simp [scanStep, isBucketFile, FsNode.isDir]
      | file =>
        by_cases h1 : extLower nm = ".mp4"
        · simp [scanStep, isBucketFile, FsNode.isDir, h1]
        · by_cases h2 : extLower nm = ".csv"
          · simp [scanStep, isBucketFile, FsNode.isDir, h1, h2]
          · by_cases h3 : extLower nm = ".pdf"
            · simp [scanStep, isBucketFile, FsNode.isDir, h1, h2, h3]
            · simp [scanStep, isBucketFile, FsNode.isDir, h1, h2, h3]
    rw [List.foldl_cons, ih, hstep, hl ".mp4", hl ".csv", hl ".pdf"]
    simp [Option.or_assoc]

/-- The scan loop keeps, for each of the three buckets, exactly the
last matching non-directory entry in enumeration order. -/
theorem scanFolder_eq_lastFiles (fs : List (String × FsNode)) :
    scanFolder fs = (lastFile ".mp4" fs, lastFile ".csv" fs, lastFile ".pdf" fs) := by
  rw [scanFolder, scanFolder_foldl]
  simp [Option.or_none]

theorem lastFile_isSome_iff (ext : String) (fs : List (String × FsNode)) :
    (lastFile ext fs).isSome = true ↔ fs.any (isBucketFile ext) = true := by
  simp [lastFile, List.find?_isSome, List.any_eq_true, List.mem_reverse]

theorem lastFile_ne_empty (ext : String) (fs : List (String × FsNode))
    (s : String) (hext : ext ≠ "") (h : lastFile ext fs = some s) : s ≠ "" := by
  simp only [lastFile, Option.map_eq_some'] at h
  obtain ⟨w, hw, hws⟩ := h
  have hpw := List.find?_some hw
  simp only [isBucketFile, Bool.and_eq_true, beq_iff_eq] at hpw
  intro hs
  have hxt : extLower s = ext := hws ▸ hpw.2
  have hemp : extLower "" = "" := rfl
  rw [hs, hemp] at hxt
  exact hext hxt.symm

theorem mkBlast_eq_none (name : String) (fs : List (String × FsNode))
    (h : hasTriple (FsNode.dir fs) = false) :
    mkBlast (name, FsNode.dir fs) = none := by
  have hh : ¬(fs.any (isBucketFile ".mp4") = true ∧
      fs.any (isBucketFile ".csv") = true ∧
      fs.any (isBucketFile ".pdf") = true) := by
    intro ⟨h1, h2, h3⟩
    simp [hasTriple, h1, h2, h3] at h
  cases hv : lastFile ".mp4" fs with
  | none => simp [mkBlast, scanFolder_eq_lastFiles, hv]
  | some vf =>
    cases hc : lastFile ".csv" fs with
    | none => simp [mkBlast, scanFolder_eq_lastFiles, hv, hc]
    | some cf =>
      cases hp : lastFile ".pdf" fs with
      | none => simp [mkBlast, scanFolder_eq_lastFiles, hv, hc, hp]
      | some pf =>
        exact absurd
          ⟨(lastFile_isSome_iff ".mp4" fs).1 (by simp [hv]),
           (lastFile_isSome_iff ".csv" fs).1 (by simp [hc]),
           (lastFile_isSome_iff ".pdf" fs).1 (by simp [hp])⟩ hh

theorem mkBlast_eq_some (name : String) (fs : List (String × FsNode))
    (h : hasTriple (FsNode.dir fs) = true) :
    ∃ b, mkBlast (name, FsNode.dir fs) = some b ∧ b.folder = name := by
  have h3 : fs.any (isBucketFile ".mp4") = true ∧
      fs.any (isBucketFile ".csv") = true ∧
      fs.any (isBucketFile ".pdf") = true := by
    simpa [hasTriple, Bool.and_eq_true, and_assoc] using h
  obtain ⟨vf, hv⟩ := Option.isSome_iff_exists.1 ((lastFile_isSome_iff _ fs).2 h3.1)
  obtain ⟨cf, hc⟩ := Option.isSome_iff_exists.1 ((lastFile_isSome_iff _ fs).2 h3.2.1)
  obtain ⟨pf, hp⟩ := Option.isSome_iff_exists.1 ((lastFile_isSome_iff _ fs).2 h3.2.2)
  have hvne := lastFile_ne_empty ".mp4" fs vf (by decide) hv
  have hcne := lastFile_ne_empty ".csv" fs cf (by decide) hc
  have hpne := lastFile_ne_empty ".pdf" fs pf (by decide) hp
  refine ⟨⟨name, staticUrl ("blasts/" ++ name ++ "/" ++ vf),
    staticUrl ("blasts/" ++ name ++ "/" ++ cf),
    staticUrl ("blasts/" ++ name ++ "/" ++ pf)⟩, ?_, rfl⟩
  simp [mkBlast, scanFolder_eq_lastFiles, hv, hc, hp, hvne, hcne, hpne]

/-- C2: for every folder, the scan keeps exactly one file per bucket,
namely the last file in enumeration order whose lowercased extension
matches that bucket (`lastFile`); nested directories and unrecognized
extensions are ignored by the classification (they never satisfy
`isBucketFile`).  Consequently an emitted triple's three references
each point at that single last-matching file. -/
theorem c2_last_wins (fs : List (String × FsNode)) :
    scanFolder fs =
      (lastFile ".mp4" fs, lastFile ".csv" fs, lastFile ".pdf" fs) ∧
    ∀ name b, mkBlast (name, FsNode.dir fs) = some b →
      b.folder = name ∧
      b.video_url =
        staticUrl ("blasts/" ++ name ++ "/" ++ (lastFile ".mp4" fs).getD "") ∧
      b.csv_url =
        staticUrl ("blasts/" ++ name ++ "/" ++ (lastFile ".csv" fs).getD "") ∧
      b.pdf_url =
        staticUrl ("blasts/" ++ name ++ "/" ++ (lastFile ".pdf" fs).getD "") := by
  refine ⟨scanFolder_eq_lastFiles fs, ?_⟩
  intro name b hb
  rw [show mkBlast (name, FsNode.dir fs) =
      (match scanFolder fs with
       | (some video_file, some csv_file, some pdf_file) =>
         if video_file ≠ "" ∧ csv_file ≠ "" ∧ pdf_file ≠ "" then
           some { folder := name,
                  video_url := staticUrl ("blasts/" ++ name ++ "/" ++ video_file),
                  csv_url := staticUrl ("blasts/" ++ name ++ "/" ++ csv_file),
                  pdf_url := staticUrl ("blasts/" ++ name ++ "/" ++ pdf_file) }
         else none
       | _ => none) from rfl, scanFolder_eq_lastFiles fs] at hb
  cases hv : lastFile ".mp4" fs with
  | none => rw [hv] at hb; simp at hb
  | some vf =>
    cases hc : lastFile ".csv" fs with
    | none => rw [hv, hc] at hb; simp at hb
    | some cf =>
      cases hp : lastFile ".pdf" fs with
      | none => rw [hv, hc, hp] at hb; simp at hb
      | some pf =>
        rw [hv, hc, hp] at hb
        dsimp only at hb
        by_cases hcond : vf ≠ "" ∧ cf ≠ "" ∧ pf ≠ ""
        · rw [if_pos hcond] at hb
          cases hb
          simp
        · rw [if_neg hcond] at hb
          cases hb

def fsA : List (String × FsNode) := [("x.mp4", FsNode.file),
  ("y.mp4", FsNode.file), ("a.csv", FsNode.file), ("sub", FsNode.dir []),
  ("b.pdf", FsNode.file), ("notes.txt", FsNode.file)]

def bA : Blast := ⟨"A", "/static/blasts/A/y.mp4", "/static/blasts/A/a.csv",
  "/static/blasts/A/b.pdf"⟩

theorem c2_last_wins_witness :
    bA.folder = "A" ∧
    bA.video_url =
      staticUrl ("blasts/" ++ "A" ++ "/" ++ (lastFile ".mp4" fsA).getD "") ∧
    bA.csv_url =
      staticUrl ("blasts/" ++ "A" ++ "/" ++ (lastFile ".csv" fsA).getD "") ∧
    bA.pdf_url =
      staticUrl ("blasts/" ++ "A" ++ "/" ++ (lastFile ".pdf" fsA).getD "") :=
  (c2_last_wins fsA).2 "A" bA (by decide)

/-- C1: for every root directory, `list_videos` succeeds and emits one
triple per immediate subfolder (in enumeration order) exactly for
those subfolders whose direct non-directory entries contain at least
one file of each of the three recognized lowercased extensions
(`hasTriple`); folders missing any one of the three types contribute
nothing — no partial triple, as the folder-name image of the result
shows. -/
theorem c1_triple_iff (es : List (String × FsNode)) :
    ∃ bs, list_videos (some (FsNode.dir es)) = Except.ok bs ∧
      bs.map Blast.folder =
        (es.filter (fun e => e.2.isDir && hasTriple e.2)).map Prod.fst := by
  refine ⟨_, rfl, ?_⟩
  induction es with
  | nil => rfl
  | cons e xs ih =>
    obtain ⟨nm, nd⟩ := e
    cases nd with
    | file =>
      have hd : (nm, FsNode.file).2.isDir = false := rfl
      simpa [List.filter_cons, hd] using ih
    | dir fsx =>
      have hd : (nm, FsNode.dir fsx).2.isDir = true := rfl
      by_cases h : hasTriple (FsNode.dir fsx) = true
      · obtain ⟨b, hb, hf⟩ := mkBlast_eq_some nm fsx h
        simp [List.filter_cons, hd, h, List.filterMap_cons, hb, hf, ih]
      · have h' : hasTriple (FsNode.dir fsx) = false := by simpa using h
        have hb := mkBlast_eq_none nm fsx h'
        simp [List.filter_cons, hd, h', List.filterMap_cons, hb, ih]
